import Mathlib

/-!
Shallow embedding of `hedisam/kubemock` (file `api/kube_handler.go`).

The program is an HTTP mock of the Kubernetes TokenReview endpoint.  Its core
is an in-memory registry `map[string]serviceAccountInfo` mapping issued JWT
strings to the service-account identity they represent, together with four
handlers: registration (issue token + insert), login/token review (lookup),
reset (clear or selective delete), and health.

Modelling conventions:
* HTTP methods are plain strings, as in Go's `r.Method`.
* A request body is an `Option Json`: `none` stands for a body whose bytes do
  not parse as JSON (including an empty body, where Go's decoder reports EOF);
  `some j` stands for a body that parses as the JSON document `j`.  Mapping a
  parsed document onto the Go target type (`map[string]any`, the
  `serviceAccountInfo` struct, the `loginRequest` struct) is a separate,
  fallible step, exactly as `json.Decoder.Decode` combines both.
* The RSA key generation and JWT signing of `generateKubeJWT` draw fresh
  random key material from `rand.Reader`; they are modelled as explicit
  parameters (the outcome of `rsa.GenerateKey` and the signing function), so
  each call site of the handler fixes one concrete outcome of the randomness.
* The Go map is modelled as an association list with overwrite-on-insert;
  `writeResponse` becomes the returned `Response` value (status code plus
  optional JSON body).
-/

/-- JSON documents, as produced by Go's `encoding/json` when decoding into
dynamic values: `null`, booleans, numbers (Go `float64`; the numeric value is
irrelevant to every handler, so it is carried as an `Int`), strings, arrays
and objects. -/
inductive Json where
  | null : Json
  | bool (b : Bool) : Json
  | num (n : Int) : Json
  | str (s : String) : Json
  | arr (elems : List Json) : Json
  | obj (fields : List (String × Json)) : Json

/-- Identity descriptor of `kube_handler.go`: `type serviceAccountInfo struct`
with JSON tags `uid`, `name`, `namespace`. -/
structure serviceAccountInfo where
  uid : String
  name : String
  «namespace» : String
deriving DecidableEq

/-- Login request of `kube_handler.go`: `type loginRequest struct` with the
nested `spec.token` field. -/
structure LoginSpec where
  token : String
deriving DecidableEq

structure loginRequest where
  spec : LoginSpec
deriving DecidableEq

/-- HTTP response as produced by `writeResponse`: a status code and an
optional JSON body (`resp == nil` writes no body). -/
structure Response where
  status : Nat
  body : Option Json

/-- Registry of the handler: the Go map `jwtToServiceAccountInfo` of type
`map[string]serviceAccountInfo`, as an association list with at most one
binding per key. -/
abbrev Registry := List (String × serviceAccountInfo)

namespace Registry

/-- Go map lookup `m[k]`: the identity bound to the token, if present. -/
def lookup : Registry → String → Option serviceAccountInfo
  | [], _ => none
  | (k, v) :: rest, t => if k = t then some v else lookup rest t

/-- Go `delete(m, k)`: removes the binding of `k`, a no-op when `k` is
absent. -/
def deleteKey (reg : Registry) (k : String) : Registry :=
  reg.filter (fun kv => kv.1 != k)

/-- Go map assignment `m[k] = v`: stores the binding, overwriting any
existing one (association-list encoding: new binding in front, any old one
removed). -/
def insert (reg : Registry) (k : String) (v : serviceAccountInfo) : Registry :=
  (k, v) :: reg.deleteKey k

end Registry

/-- Last-wins field lookup in a decoded JSON object: Go's decoder processes
keys in order and a later duplicate key overwrites the earlier value. -/
def lookupField (fields : List (String × Json)) (key : String) : Option Json :=
  fields.foldl (fun acc kv => if kv.1 = key then some kv.2 else acc) none

/-- Decoding of one JSON object field into a Go `string` struct field: an
absent field or JSON `null` leaves the zero value `""`, a JSON string is
taken as is, and any other JSON value is a type error. -/
def decodeStringField (fields : List (String × Json)) (key : String) : Except String String :=
  match lookupField fields key with
  | none => .ok ""
  | some Json.null => .ok ""
  | some (Json.str s) => .ok s
  | some _ => .error ("json: cannot unmarshal value into Go struct field " ++ key ++ " of type string")

/-- Go `json.NewDecoder(r.Body).Decode(&req)` for `var req map[string]any`:
fails when the body is not valid JSON (including an empty body, reported as
EOF) or when the document is neither an object nor `null`; decoding `null`
leaves the nil (empty) map. Error strings are representative stand-ins; no
handler inspects them. -/
def decodeMapStringAny : Option Json → Except String (List (String × Json))
  | none => .error "EOF"
  | some Json.null => .ok []
  | some (Json.obj fields) => .ok fields
  | some _ => .error "json: cannot unmarshal value into Go value of type map[string]interface"

/-- Go `json.NewDecoder(r.Body).Decode(&sa)` for `var sa serviceAccountInfo`:
fails when the body is not valid JSON or not an object/`null`; missing fields
keep their zero value `""`; unknown keys are ignored. -/
def decodeServiceAccountInfo : Option Json → Except String serviceAccountInfo
  | none => .error "EOF"
  | some Json.null => .ok ⟨"", "", ""⟩
  | some (Json.obj fields) => do
      let uid ← decodeStringField fields "uid"
      let name ← decodeStringField fields "name"
      let ns ← decodeStringField fields "namespace"
      .ok ⟨uid, name, ns⟩
  | some _ => .error "json: cannot unmarshal value into Go value of type serviceAccountInfo"

/-- Go `json.NewDecoder(r.Body).Decode(&req)` for `var req loginRequest`:
the nested `spec` object carries the `token` string; absent/`null` levels
leave zero values. -/
def decodeLoginRequest : Option Json → Except String loginRequest
  | none => .error "EOF"
  | some Json.null => .ok ⟨⟨""⟩⟩
  | some (Json.obj fields) =>
      match lookupField fields "spec" with
      | none => .ok ⟨⟨""⟩⟩
      | some Json.null => .ok ⟨⟨""⟩⟩
      | some (Json.obj sfields) => do
          let t ← decodeStringField sfields "token"
          .ok ⟨⟨t⟩⟩
      | some _ => .error "json: cannot unmarshal value into Go struct field loginRequest.spec"
  | some _ => .error "json: cannot unmarshal value into Go value of type loginRequest"

/-- Go checked type assertion `req["uids"].([]string)` applied to a value
taken out of a map decoded by `encoding/json` into `map[string]any` (the
`none` case is the untyped `nil` produced by indexing a missing key).  The
decoder only ever produces dynamic types `nil`, `bool`, `float64`, `string`,
`[]any` and `map[string]any`; in particular a JSON array decodes to `[]any`,
never to `[]string`, so the assertion's dynamic type check fails on every
such value and the two-result form yields the nil slice. -/
def typeAssertStringSlice : Option Json → List String
  | none => []
  | some Json.null => []
  | some (Json.bool _) => []
  | some (Json.num _) => []
  | some (Json.str _) => []
  | some (Json.arr _) => []
  | some (Json.obj _) => []

/-- Abstract stand-in for the RSA private key returned by
`rsa.GenerateKey(rand.Reader, 2048)`; the fresh random key material is
opaque to the rest of the program. -/
structure RSAPrivateKey where
  keyMaterial : Nat

/-- Claim set built by `generateKubeJWT`: the Go `jwt.MapClaims` map with the
three fixed service-account claim keys. -/
def kubeClaims (service namespc uid : String) : List (String × String) :=
  [("kubernetes.io/serviceaccount/service-account.uid", uid),
   ("kubernetes.io/serviceaccount/service-account.name", service),
   ("kubernetes.io/serviceaccount/namespace", namespc)]

/-- Embedding of `generateKubeJWT(service, namespace, uid string)`.  The two
external crypto effects are passed in: `keyGen` is the outcome of
`rsa.GenerateKey(rand.Reader, 2048)` for this call (fresh random key
material), `sign` is `token.SignedString` for the RS256 token built from the
claim set.  Error wrapping mirrors the Go `fmt.Errorf` calls. -/
def generateKubeJWT (keyGen : Except String RSAPrivateKey)
    (sign : RSAPrivateKey → List (String × String) → Except String String)
    (service namespc uid : String) : Except String String :=
  match keyGen with
  | .error e => .error ("generate secret key: " ++ e)
  | .ok secretKey =>
      match sign secretKey (kubeClaims service namespc uid) with
      | .error e => .error ("sign token: " ++ e)
      | .ok signedJWT => .ok signedJWT

/-- Go `fmt.Sprintf` with verb `%q` on a string: the double-quoted form.
Escaping of special characters inside the string is not modelled; every use
in the handlers quotes an HTTP method name. -/
def goQuote (s : String) : String := "\"" ++ s ++ "\""

/-- Error response body `map[string]any{"success": false, "error": msg}`
shared by the handlers' failure paths. -/
def errorBody (msg : String) : Json :=
  Json.obj [("success", Json.bool false), ("error", Json.str msg)]

/-- Login response body for an unknown token:
`{"status": {"authenticated": false}}`, written with HTTP 200. -/
def authFailedResponse : Response :=
  ⟨200, some (Json.obj [("status", Json.obj [("authenticated", Json.bool false)])])⟩

/-- Login response body for a registered token: authenticated, with the
canonical username `system:serviceaccount:<namespace>:<name>` built by
`fmt.Sprintf` and the stored uid. -/
def authSuccessResponse (sa : serviceAccountInfo) : Response :=
  ⟨200, some (Json.obj [("status", Json.obj [
      ("authenticated", Json.bool true),
      ("user", Json.obj [
        ("username", Json.str ("system:serviceaccount:" ++ sa.«namespace» ++ ":" ++ sa.name)),
        ("uid", Json.str sa.uid)])])])⟩

/-- Embedding of `HealthHandler`: GET only; never touches the registry. -/
def healthHandler (method : String) (reg : Registry) : Response × Registry :=
  if method ≠ "GET" then
    (⟨501, some (errorBody ("health handler expects GET but got " ++ goQuote method))⟩, reg)
  else
    (⟨200, none⟩, reg)

/-- Embedding of `ResetHandler`: DELETE only; decodes the body into
`map[string]any`, takes `uids, _ := req["uids"].([]string)`, and either
clears the whole registry (empty `uids`) or deletes the listed keys.  On a
decode failure the Go code hands the `fmt.Errorf` error value itself to the
JSON encoder; an error value has no exported fields, so it encodes as the
empty object `Json.obj []`. -/
def resetHandler (method : String) (body : Option Json) (reg : Registry) : Response × Registry :=
  if method ≠ "DELETE" then
    (⟨501, some (errorBody ("reset handler expects DELETE but got " ++ goQuote method))⟩, reg)
  else
    match decodeMapStringAny body with
    | .error _ =>
        (⟨400, some (Json.obj [("success", Json.bool false), ("error", Json.obj [])])⟩, reg)
    | .ok req =>
        let uids := typeAssertStringSlice (lookupField req "uids")
        if uids.length = 0 then
          (⟨200, none⟩, ([] : Registry))
        else
          (⟨200, none⟩, uids.foldl Registry.deleteKey reg)

/-- Embedding of `RegisterServiceAccountHandler`: POST only; decodes the
body into `serviceAccountInfo`, issues a JWT via `generateKubeJWT` (whose
crypto outcomes for this call are the `keyGen`/`sign` parameters), and on
success inserts the token binding and returns the token. -/
def registerServiceAccountHandler (method : String) (body : Option Json)
    (keyGen : Except String RSAPrivateKey)
    (sign : RSAPrivateKey → List (String × String) → Except String String)
    (reg : Registry) : Response × Registry :=
  if method ≠ "POST" then
    (⟨501, some (errorBody ("service account registration handler expects POST but got " ++ goQuote method))⟩, reg)
  else
    match decodeServiceAccountInfo body with
    | .error e =>
        (⟨400, some (errorBody ("invalid service account registration request: " ++ e))⟩, reg)
    | .ok sa =>
        match generateKubeJWT keyGen sign sa.name sa.«namespace» sa.uid with
        | .error e =>
            (⟨500, some (errorBody ("generate jwt token: " ++ e))⟩, reg)
        | .ok jwtToken =>
            (⟨200, some (Json.obj [("success", Json.bool true), ("jwt", Json.str jwtToken)])⟩,
             reg.insert jwtToken sa)

/-- Embedding of `LoginHandler`: POST or PUT; decodes the body into
`loginRequest`, looks the presented token up in the registry, and reports
either an unauthenticated status (unknown token, still HTTP 200) or the
authenticated status with canonical username and uid. -/
def loginHandler (method : String) (body : Option Json) (reg : Registry) : Response × Registry :=
  if method ≠ "POST" ∧ method ≠ "PUT" then
    (⟨501, some (errorBody ("login request must be either PUT or POST but got " ++ goQuote method))⟩, reg)
  else
    match decodeLoginRequest body with
    | .error e =>
        (⟨400, some (errorBody ("invalid login request: " ++ e))⟩, reg)
    | .ok req =>
        match Registry.lookup reg req.spec.token with
        | none => (authFailedResponse, reg)
        | some sa => (authSuccessResponse sa, reg)

/-- Request body `{"spec": {"token": t}}` of a TokenReview call, as sent by
Vault to the login endpoint. -/
def loginRequestBody (t : String) : Option Json :=
  some (Json.obj [("spec", Json.obj [("token", Json.str t)])])

/-! ## Registry lemmas -/

/-- The checked type assertion to `[]string` fails on every value the JSON
decoder can produce, yielding the nil slice. -/
theorem typeAssertStringSlice_eq_nil (x : Option Json) : typeAssertStringSlice x = [] := by
  rcases x with _ | j
  · rfl
  · cases j <;> rfl

/-- Deleting one key leaves the binding of every other key unchanged. -/
theorem Registry.lookup_deleteKey_ne (reg : Registry) (k t : String) (h : t ≠ k) :
    (reg.deleteKey k).lookup t = reg.lookup t := by
  induction reg with
  | nil => rfl
  | cons kv rest ih =>
    rcases kv with ⟨k1, v1⟩
    by_cases hk : k1 = k
    · have hfilter : Registry.deleteKey ((k1, v1) :: rest) k = Registry.deleteKey rest k := by
        simp [Registry.deleteKey, List.filter_cons, hk]
      have hne : ¬ k1 = t := by rw [hk]; exact fun he => h he.symm
      rw [hfilter, ih]
      simp [Registry.lookup, hne]
    · have hfilter : Registry.deleteKey ((k1, v1) :: rest) k
          = (k1, v1) :: Registry.deleteKey rest k := by
        simp [Registry.deleteKey, List.filter_cons, hk]
      rw [hfilter]
      show (if k1 = t then some v1 else (Registry.deleteKey rest k).lookup t) = _
      rw [ih]
      rfl

/-- Looking up the key just inserted returns the inserted identity. -/
theorem Registry.lookup_insert_self (reg : Registry) (k : String) (v : serviceAccountInfo) :
    (reg.insert k v).lookup k = some v := by
  simp [Registry.insert, Registry.lookup]

/-- Inserting one key leaves the binding of every other key unchanged. -/
theorem Registry.lookup_insert_ne (reg : Registry) (k t : String) (v : serviceAccountInfo)
    (h : t ≠ k) : (reg.insert k v).lookup t = reg.lookup t := by
  have hne : ¬ k = t := fun he => h he.symm
  show (if k = t then some v else (reg.deleteKey k).lookup t) = _
  rw [if_neg hne]
  exact Registry.lookup_deleteKey_ne reg k t h

/-! ## Handler lemmas -/

/-- The TokenReview request body built by `loginRequestBody` decodes to the
login request carrying its token. -/
theorem decodeLoginRequest_loginRequestBody (t : String) :
    decodeLoginRequest (loginRequestBody t) = .ok ⟨⟨t⟩⟩ := rfl

/-- Successful registration: well-formed body plus successful issuance yields
the token response and inserts the binding. -/
theorem registerHandler_ok (reg : Registry) (body : Option Json) (sa : serviceAccountInfo)
    (kg : Except String RSAPrivateKey)
    (sg : RSAPrivateKey → List (String × String) → Except String String) (t : String)
    (hDecode : decodeServiceAccountInfo body = .ok sa)
    (hIssue : generateKubeJWT kg sg sa.name sa.«namespace» sa.uid = .ok t) :
    registerServiceAccountHandler "POST" body kg sg reg =
      (⟨200, some (Json.obj [("success", Json.bool true), ("jwt", Json.str t)])⟩,
       reg.insert t sa) := by
  simp only [registerServiceAccountHandler, hDecode, hIssue]
  norm_num

/-- Login with a registered token answers with the authenticated response and
does not change the registry. -/
theorem loginHandler_found (reg : Registry) (t : String) (sa : serviceAccountInfo)
    (h : Registry.lookup reg t = some sa) :
    loginHandler "POST" (loginRequestBody t) reg = (authSuccessResponse sa, reg) := by
  simp only [loginHandler, decodeLoginRequest_loginRequestBody, h]
  norm_num

/-- Login with an unknown token answers with the unauthenticated response and
does not change the registry. -/
theorem loginHandler_miss (reg : Registry) (t : String)
    (h : Registry.lookup reg t = none) :
    loginHandler "POST" (loginRequestBody t) reg = (authFailedResponse, reg) := by
  simp only [loginHandler, decodeLoginRequest_loginRequestBody, h]
  norm_num

/-! ## Claims -/

/-- C1: Round-trip register-then-validate.  For a token `t` returned by a
successful `Register({uid:"12345", name:"my-service", namespace:"default"})`
(any issuance outcome producing `t`), a subsequent `Validate(t)` on the
unchanged registry returns `authenticated: true`, the canonical username
`"system:serviceaccount:default:my-service"` (literal prefix and colon
delimiters) and uid `"12345"`, for every starting registry. -/
theorem register_validate_roundtrip
    (reg : Registry) (keyGen : Except String RSAPrivateKey)
    (sign : RSAPrivateKey → List (String × String) → Except String String)
    (t : String)
    (hIssue : generateKubeJWT keyGen sign "my-service" "default" "12345" = .ok t) :
    (registerServiceAccountHandler "POST"
        (some (Json.obj [("uid", Json.str "12345"), ("name", Json.str "my-service"),
          ("namespace", Json.str "default")])) keyGen sign reg).1 =
      ⟨200, some (Json.obj [("success", Json.bool true), ("jwt", Json.str t)])⟩ ∧
    (loginHandler "POST" (loginRequestBody t)
        (registerServiceAccountHandler "POST"
          (some (Json.obj [("uid", Json.str "12345"), ("name", Json.str "my-service"),
            ("namespace", Json.str "default")])) keyGen sign reg).2).1 =
      ⟨200, some (Json.obj [("status", Json.obj [
        ("authenticated", Json.bool true),
        ("user", Json.obj [
          ("username", Json.str "system:serviceaccount:default:my-service"),
          ("uid", Json.str "12345")])])])⟩ := by
  have hsa : decodeServiceAccountInfo
      (some (Json.obj [("uid", Json.str "12345"), ("name", Json.str "my-service"),
        ("namespace", Json.str "default")])) = .ok ⟨"12345", "my-service", "default"⟩ := by rfl
  simp only [registerServiceAccountHandler, hsa, hIssue]
  norm_num
  simp only [loginHandler, decodeLoginRequest_loginRequestBody]
  norm_num
  rw [Registry.lookup_insert_self]
  rfl

/-- Witness for C1: concrete issuance outcome `"token-1"` on the empty
registry. -/
theorem register_validate_roundtrip_witness :
    generateKubeJWT (Except.ok (RSAPrivateKey.mk 0)) (fun _ _ => Except.ok "token-1")
      "my-service" "default" "12345" = Except.ok "token-1" ∧
    ((registerServiceAccountHandler "POST"
        (some (Json.obj [("uid", Json.str "12345"), ("name", Json.str "my-service"),
          ("namespace", Json.str "default")]))
        (Except.ok (RSAPrivateKey.mk 0)) (fun _ _ => Except.ok "token-1") []).1 =
      ⟨200, some (Json.obj [("success", Json.bool true), ("jwt", Json.str "token-1")])⟩ ∧
    (loginHandler "POST" (loginRequestBody "token-1")
        (registerServiceAccountHandler "POST"
          (some (Json.obj [("uid", Json.str "12345"), ("name", Json.str "my-service"),
            ("namespace", Json.str "default")]))
          (Except.ok (RSAPrivateKey.mk 0)) (fun _ _ => Except.ok "token-1") []).2).1 =
      ⟨200, some (Json.obj [("status", Json.obj [
        ("authenticated", Json.bool true),
        ("user", Json.obj [
          ("username", Json.str "system:serviceaccount:default:my-service"),
          ("uid", Json.str "12345")])])])⟩) :=
  ⟨rfl, register_validate_roundtrip [] (Except.ok (RSAPrivateKey.mk 0))
    (fun _ _ => Except.ok "token-1") "token-1" rfl⟩

/-- C2: a token that is not a key of the registry fails Validate with a
normal successful response — HTTP 200 with `authenticated: false`, not an
error — and the registry is unchanged. -/
theorem validate_unknown_token (reg : Registry) (t : String)
    (h : Registry.lookup reg t = none) :
    loginHandler "POST" (loginRequestBody t) reg =
      (⟨200, some (Json.obj [("status", Json.obj [("authenticated", Json.bool false)])])⟩, reg) :=
  loginHandler_miss reg t h

/-- Witness for C2: the never-issued token `"never-issued"` against the empty
registry. -/
theorem validate_unknown_token_witness :
    Registry.lookup [] "never-issued" = none ∧
    loginHandler "POST" (loginRequestBody "never-issued") [] =
      (⟨200, some (Json.obj [("status", Json.obj [("authenticated", Json.bool false)])])⟩, []) :=
  ⟨rfl, validate_unknown_token [] "never-issued" rfl⟩

/-- C3: evaluation of the reset handler at a selective-delete request.  With
registry `{t1, t2}` and request body `{"uids": ["t1"]}`, the handler clears
the whole registry — the entry `t2`, whose key is not in the supplied set, is
removed as well — because the decoded `uids` value (a `[]any`) never passes
the `[]string` type assertion, so the full-clear branch runs.  This
contradicts the claimed selective delete. -/
theorem reset_selective_delete_clears_everything :
    resetHandler "DELETE" (some (Json.obj [("uids", Json.arr [Json.str "t1"])]))
      [("t1", ⟨"u1", "svc-one", "ns-one"⟩), ("t2", ⟨"u2", "svc-two", "ns-two"⟩)]
      = (⟨200, none⟩, []) := rfl

/-- C4: every DELETE reset request whose body decodes as JSON empties the
registry entirely, whatever `uids` value was supplied: the decoded `uids`
never satisfies the `[]string` type assertion, the to-delete list is always
empty, the full-clear branch runs, and afterwards Validate returns
`authenticated: false` for every token. -/
theorem reset_decoded_body_always_clears
    (reg : Registry) (body : Option Json) (req : List (String × Json))
    (h : decodeMapStringAny body = .ok req) :
    typeAssertStringSlice (lookupField req "uids") = [] ∧
    resetHandler "DELETE" body reg = (⟨200, none⟩, []) ∧
    ∀ t : String,
      (loginHandler "POST" (loginRequestBody t) (resetHandler "DELETE" body reg).2).1 =
        ⟨200, some (Json.obj [("status", Json.obj [("authenticated", Json.bool false)])])⟩ := by
  have hreset : resetHandler "DELETE" body reg = (⟨200, none⟩, []) := by
    simp only [resetHandler, h, typeAssertStringSlice_eq_nil]
    norm_num
  refine ⟨typeAssertStringSlice_eq_nil _, hreset, fun t => ?_⟩
  rw [hreset]
  rw [loginHandler_miss [] t rfl]
  rfl

/-- Witness for C4: a reset request that names only the key `"a"` still wipes
the whole registry, and `"a"` subsequently fails Validate. -/
theorem reset_decoded_body_always_clears_witness :
    decodeMapStringAny (some (Json.obj [("uids", Json.arr [Json.str "a"])]))
      = Except.ok [("uids", Json.arr [Json.str "a"])] ∧
    (resetHandler "DELETE" (some (Json.obj [("uids", Json.arr [Json.str "a"])]))
      [("a", ⟨"ua", "svc-a", "ns-a"⟩)] = (⟨200, none⟩, []) ∧
    (loginHandler "POST" (loginRequestBody "a")
      (resetHandler "DELETE" (some (Json.obj [("uids", Json.arr [Json.str "a"])]))
        [("a", ⟨"ua", "svc-a", "ns-a"⟩)]).2).1 =
      ⟨200, some (Json.obj [("status", Json.obj [("authenticated", Json.bool false)])])⟩) :=
  ⟨rfl, (reset_decoded_body_always_clears [("a", ⟨"ua", "svc-a", "ns-a"⟩)]
      (some (Json.obj [("uids", Json.arr [Json.str "a"])]))
      [("uids", Json.arr [Json.str "a"])] rfl).2.1,
    (reset_decoded_body_always_clears [("a", ⟨"ua", "svc-a", "ns-a"⟩)]
      (some (Json.obj [("uids", Json.arr [Json.str "a"])]))
      [("uids", Json.arr [Json.str "a"])] rfl).2.2 "a"⟩

/-- C5: a successful Reset with no keys supplied (body `{}`) empties the
registry, and afterwards every token — previously issued or not — fails
Validate with `authenticated: false`. -/
theorem reset_no_keys_clears (reg : Registry) (t : String) :
    resetHandler "DELETE" (some (Json.obj [])) reg = (⟨200, none⟩, []) ∧
    (loginHandler "POST" (loginRequestBody t)
        (resetHandler "DELETE" (some (Json.obj [])) reg).2).1 =
      ⟨200, some (Json.obj [("status", Json.obj [("authenticated", Json.bool false)])])⟩ := by
  refine ⟨rfl, ?_⟩
  rw [show (resetHandler "DELETE" (some (Json.obj [])) reg).2 = [] from rfl]
  rw [loginHandler_miss [] t rfl]
  rfl

/-- C6: atomicity of registration on issuance failure.  If the token
issuance (`generateKubeJWT`) fails — key generation or signing — then the
register handler reports a server-side fault (HTTP 500, `success: false`)
and the registry after the call equals the registry before it. -/
theorem register_issuance_failure_no_mutation
    (reg : Registry) (body : Option Json) (sa : serviceAccountInfo) (e : String)
    (kg : Except String RSAPrivateKey)
    (sg : RSAPrivateKey → List (String × String) → Except String String)
    (hDecode : decodeServiceAccountInfo body = .ok sa)
    (hIssue : generateKubeJWT kg sg sa.name sa.«namespace» sa.uid = .error e) :
    registerServiceAccountHandler "POST" body kg sg reg =
      (⟨500, some (errorBody ("generate jwt token: " ++ e))⟩, reg) := by
  simp only [registerServiceAccountHandler, hDecode, hIssue]
  norm_num

/-- Witness for C6: a key-generation failure against a one-entry registry. -/
theorem register_issuance_failure_no_mutation_witness :
    decodeServiceAccountInfo (some Json.null) = Except.ok ⟨"", "", ""⟩ ∧
    generateKubeJWT (Except.error "random source failure") (fun _ _ => Except.ok "tok")
      "" "" "" = Except.error "generate secret key: random source failure" ∧
    registerServiceAccountHandler "POST" (some Json.null)
      (Except.error "random source failure") (fun _ _ => Except.ok "tok")
      [("t0", ⟨"u0", "svc-zero", "ns-zero"⟩)] =
      (⟨500, some (errorBody ("generate jwt token: " ++ "generate secret key: random source failure"))⟩,
       [("t0", ⟨"u0", "svc-zero", "ns-zero"⟩)]) :=
  ⟨rfl, rfl, register_issuance_failure_no_mutation _ _ _ _ _ _ rfl rfl⟩

/-- C7: Register is not idempotent.  Two successful registrations of the same
identity whose fresh random key material yields distinct tokens `t1 ≠ t2`
(distinctness is exactly what the fresh per-call key material provides; it is
not separately enforced, and `Registry.insert` would silently overwrite on a
collision) leave two registry entries simultaneously bound to that identity,
and each token independently passes Validate. -/
theorem register_not_idempotent
    (reg : Registry) (body : Option Json) (sa : serviceAccountInfo)
    (kg1 kg2 : Except String RSAPrivateKey)
    (sg1 sg2 : RSAPrivateKey → List (String × String) → Except String String)
    (t1 t2 : String)
    (hDecode : decodeServiceAccountInfo body = .ok sa)
    (h1 : generateKubeJWT kg1 sg1 sa.name sa.«namespace» sa.uid = .ok t1)
    (h2 : generateKubeJWT kg2 sg2 sa.name sa.«namespace» sa.uid = .ok t2)
    (hne : t1 ≠ t2) :
    Registry.lookup
        (registerServiceAccountHandler "POST" body kg2 sg2
          (registerServiceAccountHandler "POST" body kg1 sg1 reg).2).2 t1 = some sa ∧
    Registry.lookup
        (registerServiceAccountHandler "POST" body kg2 sg2
          (registerServiceAccountHandler "POST" body kg1 sg1 reg).2).2 t2 = some sa ∧
    (loginHandler "POST" (loginRequestBody t1)
        (registerServiceAccountHandler "POST" body kg2 sg2
          (registerServiceAccountHandler "POST" body kg1 sg1 reg).2).2).1 =
      authSuccessResponse sa ∧
    (loginHandler "POST" (loginRequestBody t2)
        (registerServiceAccountHandler "POST" body kg2 sg2
          (registerServiceAccountHandler "POST" body kg1 sg1 reg).2).2).1 =
      authSuccessResponse sa := by
  have hr1 : (registerServiceAccountHandler "POST" body kg1 sg1 reg).2 = reg.insert t1 sa := by
    rw [registerHandler_ok reg body sa kg1 sg1 t1 hDecode h1]
  have hr2 : (registerServiceAccountHandler "POST" body kg2 sg2
      (registerServiceAccountHandler "POST" body kg1 sg1 reg).2).2
      = (reg.insert t1 sa).insert t2 sa := by
    rw [hr1, registerHandler_ok (reg.insert t1 sa) body sa kg2 sg2 t2 hDecode h2]
  have hl1 : Registry.lookup ((reg.insert t1 sa).insert t2 sa) t1 = some sa := by
    rw [Registry.lookup_insert_ne _ _ _ _ hne, Registry.lookup_insert_self]
  have hl2 : Registry.lookup ((reg.insert t1 sa).insert t2 sa) t2 = some sa :=
    Registry.lookup_insert_self _ _ _
  rw [hr2]
  exact ⟨hl1, hl2, by rw [loginHandler_found _ _ _ hl1], by rw [loginHandler_found _ _ _ hl2]⟩

/-- Witness for C7: two registrations of the same identity with issuance
outcomes `"tokA"` and `"tokB"`; both bindings are present afterwards. -/
theorem register_not_idempotent_witness :
    decodeServiceAccountInfo (some Json.null) = Except.ok ⟨"", "", ""⟩ ∧
    generateKubeJWT (Except.ok (RSAPrivateKey.mk 1)) (fun _ _ => Except.ok "tokA")
      "" "" "" = Except.ok "tokA" ∧
    generateKubeJWT (Except.ok (RSAPrivateKey.mk 2)) (fun _ _ => Except.ok "tokB")
      "" "" "" = Except.ok "tokB" ∧
    ("tokA" : String) ≠ "tokB" ∧
    Registry.lookup
        (registerServiceAccountHandler "POST" (some Json.null)
          (Except.ok (RSAPrivateKey.mk 2)) (fun _ _ => Except.ok "tokB")
          (registerServiceAccountHandler "POST" (some Json.null)
            (Except.ok (RSAPrivateKey.mk 1)) (fun _ _ => Except.ok "tokA") []).2).2 "tokA"
      = some ⟨"", "", ""⟩ ∧
    Registry.lookup
        (registerServiceAccountHandler "POST" (some Json.null)
          (Except.ok (RSAPrivateKey.mk 2)) (fun _ _ => Except.ok "tokB")
          (registerServiceAccountHandler "POST" (some Json.null)
            (Except.ok (RSAPrivateKey.mk 1)) (fun _ _ => Except.ok "tokA") []).2).2 "tokB"
      = some ⟨"", "", ""⟩ :=
  ⟨rfl, rfl, rfl, by decide,
    (register_not_idempotent [] (some Json.null) ⟨"", "", ""⟩
      (Except.ok (RSAPrivateKey.mk 1)) (Except.ok (RSAPrivateKey.mk 2))
      (fun _ _ => Except.ok "tokA") (fun _ _ => Except.ok "tokB") "tokA" "tokB"
      rfl rfl rfl (by decide)).1,
    (register_not_idempotent [] (some Json.null) ⟨"", "", ""⟩
      (Except.ok (RSAPrivateKey.mk 1)) (Except.ok (RSAPrivateKey.mk 2))
      (fun _ _ => Except.ok "tokA") (fun _ _ => Except.ok "tokB") "tokA" "tokB"
      rfl rfl rfl (by decide)).2.1⟩

/-- C8: malformed-input atomicity.  A Register or Validate request whose body
fails to decode yields HTTP 400 with `success: false` and an error message,
and the registry is returned unchanged (so every token valid before the
malformed request is still valid after it). -/
theorem malformed_body_rejected_no_mutation
    (reg : Registry) (b1 b2 : Option Json) (e1 e2 : String)
    (kg : Except String RSAPrivateKey)
    (sg : RSAPrivateKey → List (String × String) → Except String String)
    (h1 : decodeServiceAccountInfo b1 = .error e1)
    (h2 : decodeLoginRequest b2 = .error e2) :
    registerServiceAccountHandler "POST" b1 kg sg reg =
      (⟨400, some (errorBody ("invalid service account registration request: " ++ e1))⟩, reg) ∧
    loginHandler "POST" b2 reg =
      (⟨400, some (errorBody ("invalid login request: " ++ e2))⟩, reg) := by
  constructor
  · simp only [registerServiceAccountHandler, h1]
    norm_num
  · simp only [loginHandler, h2]
    norm_num

/-- Witness for C8: unparsable (empty) bodies against a one-entry registry;
the entry is untouched. -/
theorem malformed_body_rejected_no_mutation_witness :
    decodeServiceAccountInfo none = Except.error "EOF" ∧
    decodeLoginRequest none = Except.error "EOF" ∧
    (registerServiceAccountHandler "POST" none (Except.ok (RSAPrivateKey.mk 0))
        (fun _ _ => Except.ok "tok") [("t0", ⟨"u0", "svc-zero", "ns-zero"⟩)] =
      (⟨400, some (errorBody ("invalid service account registration request: " ++ "EOF"))⟩,
       [("t0", ⟨"u0", "svc-zero", "ns-zero"⟩)]) ∧
    loginHandler "POST" none [("t0", ⟨"u0", "svc-zero", "ns-zero"⟩)] =
      (⟨400, some (errorBody ("invalid login request: " ++ "EOF"))⟩,
       [("t0", ⟨"u0", "svc-zero", "ns-zero"⟩)])) :=
  ⟨rfl, rfl, malformed_body_rejected_no_mutation _ _ _ _ _ _ _ rfl rfl⟩

/-- C9: wrong-method rejection without mutation.  Each handler invoked with a
method outside its accepted set (Register: POST; Validate: POST or PUT;
Reset: DELETE; Health: GET) answers HTTP 501 with `success: false` without
consulting the body (the body is universally quantified), and the registry is
unchanged. -/
theorem wrong_method_not_implemented
    (reg : Registry) (body : Option Json) (m1 m2 m3 m4 : String)
    (kg : Except String RSAPrivateKey)
    (sg : RSAPrivateKey → List (String × String) → Except String String)
    (h1 : m1 ≠ "POST") (h2 : m2 ≠ "POST") (h2' : m2 ≠ "PUT")
    (h3 : m3 ≠ "DELETE") (h4 : m4 ≠ "GET") :
    registerServiceAccountHandler m1 body kg sg reg =
      (⟨501, some (errorBody
        ("service account registration handler expects POST but got " ++ goQuote m1))⟩, reg) ∧
    loginHandler m2 body reg =
      (⟨501, some (errorBody
        ("login request must be either PUT or POST but got " ++ goQuote m2))⟩, reg) ∧
    resetHandler m3 body reg =
      (⟨501, some (errorBody ("reset handler expects DELETE but got " ++ goQuote m3))⟩, reg) ∧
    healthHandler m4 reg =
      (⟨501, some (errorBody ("health handler expects GET but got " ++ goQuote m4))⟩, reg) := by
  refine ⟨?_, ?_, ?_, ?_⟩
  · simp only [registerServiceAccountHandler]
    rw [if_pos h1]
  · simp only [loginHandler]
    rw [if_pos ⟨h2, h2'⟩]
  · simp only [resetHandler]
    rw [if_pos h3]
  · simp only [healthHandler]
    rw [if_pos h4]

/-- Witness for C9: method `"PATCH"` against every handler. -/
theorem wrong_method_not_implemented_witness :
    ("PATCH" : String) ≠ "POST" ∧ ("PATCH" : String) ≠ "PUT" ∧
    ("PATCH" : String) ≠ "DELETE" ∧ ("PATCH" : String) ≠ "GET" ∧
    (registerServiceAccountHandler "PATCH" none (Except.ok (RSAPrivateKey.mk 0))
        (fun _ _ => Except.ok "tok") [] =
      (⟨501, some (errorBody
        ("service account registration handler expects POST but got " ++ goQuote "PATCH"))⟩, []) ∧
    loginHandler "PATCH" none [] =
      (⟨501, some (errorBody
        ("login request must be either PUT or POST but got " ++ goQuote "PATCH"))⟩, []) ∧
    resetHandler "PATCH" none [] =
      (⟨501, some (errorBody ("reset handler expects DELETE but got " ++ goQuote "PATCH"))⟩, []) ∧
    healthHandler "PATCH" [] =
      (⟨501, some (errorBody ("health handler expects GET but got " ++ goQuote "PATCH"))⟩, [])) :=
  ⟨by decide, by decide, by decide, by decide,
    wrong_method_not_implemented [] none "PATCH" "PATCH" "PATCH" "PATCH" _ _
      (by decide) (by decide) (by decide) (by decide) (by decide)⟩

/-- C10: a DELETE reset request whose body does not decode as JSON (in
particular an absent or empty body) is rejected with HTTP 400 and mutates
nothing, while a well-formed body such as `{}` or `null` does clear the
registry. -/
theorem reset_invalid_body_rejected
    (reg : Registry) (body : Option Json) (e : String)
    (h : decodeMapStringAny body = .error e) :
    resetHandler "DELETE" body reg =
      (⟨400, some (Json.obj [("success", Json.bool false), ("error", Json.obj [])])⟩, reg) ∧
    resetHandler "DELETE" none reg =
      (⟨400, some (Json.obj [("success", Json.bool false), ("error", Json.obj [])])⟩, reg) ∧
    (resetHandler "DELETE" (some (Json.obj [])) reg).2 = [] ∧
    (resetHandler "DELETE" (some Json.null) reg).2 = [] := by
  refine ⟨?_, rfl, rfl, rfl⟩
  simp only [resetHandler, h]
  norm_num

/-- Witness for C10: a DELETE with no body against a one-entry registry. -/
theorem reset_invalid_body_rejected_witness :
    decodeMapStringAny none = Except.error "EOF" ∧
    (resetHandler "DELETE" none [("t0", ⟨"u0", "svc-zero", "ns-zero"⟩)] =
      (⟨400, some (Json.obj [("success", Json.bool false), ("error", Json.obj [])])⟩,
       [("t0", ⟨"u0", "svc-zero", "ns-zero"⟩)]) ∧
    resetHandler "DELETE" none [("t0", ⟨"u0", "svc-zero", "ns-zero"⟩)] =
      (⟨400, some (Json.obj [("success", Json.bool false), ("error", Json.obj [])])⟩,
       [("t0", ⟨"u0", "svc-zero", "ns-zero"⟩)]) ∧
    (resetHandler "DELETE" (some (Json.obj [])) [("t0", ⟨"u0", "svc-zero", "ns-zero"⟩)]).2 = [] ∧
    (resetHandler "DELETE" (some Json.null) [("t0", ⟨"u0", "svc-zero", "ns-zero"⟩)]).2 = []) :=
  ⟨rfl, reset_invalid_body_rejected _ none "EOF" rfl⟩
